import Mathlib

/-!
Verification of the page-merge pipeline of `pdf_ocr_cli.py`.

The program orchestrates three external collaborators (a PDF rasterizer, an
OCR engine, and a PDF reader/writer through pdfplumber / pytesseract /
PyPDF2).  The embedding models each collaborator call as an oracle outcome
recorded in an environment: `Except Unit α` stands for a Python call that
either returns a value or raises an exception that the surrounding
`try`/`except` sees.  Every definition below is a direct transcription of
the corresponding Python function in `src/pdf_ocr_cli.py`.
-/

/-- Outcome of one `page.extract_text()` call through pdfplumber:
`Except.error ()` means the call raised, `Except.ok none` means it returned
Python `None`, `Except.ok (some t)` means it returned the string `t`. -/
abbrev ExtractOutcome := Except Unit (Option String)

/-- Model of a document as seen through `pdfplumber.open`: the outcome of
`extract_text()` on each of its pages, in page order. -/
structure PlumberDoc where
  pages : List ExtractOutcome

/-- Number of pages reported by a pdfplumber handle; `none` models
`pdfplumber.open` itself raising, in which case no page is reachable. -/
def plumberPageCount : Option PlumberDoc → Nat
  | none => 0
  | some doc => doc.pages.length

/-- Transcription of Python's `str.strip()`: remove whitespace characters
from both ends of the string. -/
def strip (s : String) : String :=
  String.mk (((s.data.dropWhile Char.isWhitespace).reverse.dropWhile Char.isWhitespace).reverse)

/-- Transcription of `pdf_page_has_text(pdf_path, page_number)`
(src/pdf_ocr_cli.py lines 91-106).  The whole body is wrapped in
`try`/`except` returning `False`; inside, a negative or out-of-range index
returns `False`, and otherwise the page is classified as having text iff
`text` is truthy and `len(text.strip()) > 20`. -/
def pdf_page_has_text (plumber : Option PlumberDoc) (page_number : Int) : Bool :=
  match plumber with
  | none => false
  | some doc =>
    if page_number < 0 || (doc.pages.length : Int) ≤ page_number then
      false
    else
      match doc.pages.getD page_number.toNat (Except.error ()) with
      | Except.error () => false
      | Except.ok none => false
      | Except.ok (some text) => !text.isEmpty && decide (20 < (strip text).length)

/-- A page of the assembled output document.  `original idx` is the page
object `reader_orig.pages[idx]` copied unchanged; `ocr id` is a page parsed
out of the bytes returned by `ocr_image_to_pdf_bytes` (identified by an
opaque id); `blank` is the A4-ish blank page added by
`writer.add_blank_page(width=595, height=842)`. -/
inductive OutPage where
  | original (idx : Nat)
  | ocr (id : Nat)
  | blank
deriving Repr, DecidableEq

/-- Oracle outcomes for the collaborator calls made while processing one
page of the loop in `process_single_pdf` (lines 205-241):
`copy` is the outcome of `writer.add_page(reader_orig.pages[idx])` when the
index is in range; `skipExtract` is the pdfplumber open-and-extract at lines
215-216 of the skip branch; `ocrPdf` is `ocr_image_to_pdf_bytes` followed by
`merge_pdf_bytes_into_writer`, returning the ids of the pages contained in
the produced bytes (an error adds no page); `ocrText` is
`ocr_image_to_text`. -/
structure PageCtx where
  copy : Except Unit Unit
  skipExtract : ExtractOutcome
  ocrPdf : Except Unit (List Nat)
  ocrText : Except Unit String

/-- Environment for one `process_single_pdf` run: `numPages` is
`len(reader_orig.pages)` from PyPDF2, `plumber` backs the
`pdf_page_has_text` calls, `numImages` is the length of the list returned by
`pdf_to_images`, and `ctx` gives the per-page collaborator outcomes. -/
structure DocEnv where
  numPages : Nat
  plumber : Option PlumberDoc
  numImages : Nat
  ctx : Nat → PageCtx

/-- Options of `process_single_pdf` that steer the page loop. -/
structure Opts where
  output_pdf : Bool
  output_txt : Bool
  skip_if_text : Bool

/-- The operation `writer.add_page(reader_orig.pages[idx])`: indexing past
the end of `reader_orig.pages` raises `IndexError`; in range, the oracle
decides whether the copy succeeds. -/
def copyOriginal (numPages : Nat) (c : PageCtx) (idx : Nat) : Except Unit Unit :=
  if idx < numPages then c.copy else Except.error ()

/-- What one loop iteration contributed: the pages appended to `writer`, the
strings appended to `all_text`, and how many times the OCR engine
(`ocr_image_to_pdf_bytes` or `ocr_image_to_text`) was invoked. -/
structure PageResult where
  pages : List OutPage
  texts : List String
  ocrCalls : Nat
deriving Repr, DecidableEq

/-- A page result together with whether an exception escaped the body of the
page-level `try` (and must be handled by the `except` at line 233).  Pages
appended before the exception stay appended. -/
structure Attempt where
  res : PageResult
  failed : Bool

/-- The OCR leg (lines 221-225 and identically 227-232): produce a PDF from
the image and merge its pages into the writer; on success, when text output
is requested, also run OCR text extraction.  An exception in either call
escapes to the page-level handler, with any already-merged pages kept. -/
def ocrStep (opts : Opts) (c : PageCtx) : Attempt :=
  match c.ocrPdf with
  | Except.error () => ⟨⟨[], [], 1⟩, true⟩
  | Except.ok ids =>
    if opts.output_txt then
      match c.ocrText with
      | Except.ok t => ⟨⟨ids.map OutPage.ocr, [t], 2⟩, false⟩
      | Except.error () => ⟨⟨ids.map OutPage.ocr, [], 2⟩, true⟩
    else ⟨⟨ids.map OutPage.ocr, [], 1⟩, false⟩

/-- The skip branch (lines 208-225), taken when the classifier reported
text: copy the original page; if text output is requested, re-open the file
with pdfplumber and extract the page text (`extract_text() or ""`).  Any
exception in this inner `try` logs a warning and falls through to OCR —
note that if `add_page` already succeeded the original page stays in the
writer before the OCR pages are merged. -/
def skipStep (numPages : Nat) (opts : Opts) (c : PageCtx) (idx : Nat) : Attempt :=
  match copyOriginal numPages c idx with
  | Except.ok () =>
    if opts.output_txt then
      match c.skipExtract with
      | Except.ok t => ⟨⟨[OutPage.original idx], [t.getD ""], 0⟩, false⟩
      | Except.error () =>
        let a := ocrStep opts c
        ⟨⟨OutPage.original idx :: a.res.pages, a.res.texts, a.res.ocrCalls⟩, a.failed⟩
    else ⟨⟨[OutPage.original idx], [], 0⟩, false⟩
  | Except.error () => ocrStep opts c

/-- One iteration of the page loop (lines 205-241): choose the skip branch
or the OCR branch, and on an escaping exception run the handler at lines
233-241, which appends the original page if possible and otherwise a blank
page — in addition to whatever the failed body had already appended. -/
def processPage (env : DocEnv) (opts : Opts) (idx : Nat) : PageResult :=
  let c := env.ctx idx
  let att :=
    if opts.skip_if_text && pdf_page_has_text env.plumber (idx : Int) then
      skipStep env.numPages opts c idx
    else
      ocrStep opts c
  if att.failed then
    match copyOriginal env.numPages c idx with
    | Except.ok () => ⟨att.res.pages ++ [OutPage.original idx], att.res.texts, att.res.ocrCalls⟩
    | Except.error () => ⟨att.res.pages ++ [OutPage.blank], att.res.texts, att.res.ocrCalls⟩
  else att.res

/-- The results of the whole page loop, one entry per rasterized image: the
loop is `for page_idx, img in enumerate(images)`, so it iterates exactly
over the image indices `0, ..., len(images) - 1`. -/
def processResults (env : DocEnv) (opts : Opts) : List PageResult :=
  (List.range env.numImages).map (processPage env opts)

/-- The page-break separator of line 256. -/
def pageBreakSep : String := "\n\n=== PAGE BREAK ===\n\n"

/-- Transcription of line 256:
`"\n\n=== PAGE BREAK ===\n\n".join([t.strip() for t in all_text if t])` —
drop the falsy (empty) entries, strip each survivor, join with the
separator. -/
def combined_text (all_text : List String) : String :=
  String.intercalate pageBreakSep ((all_text.filter (fun t => !t.isEmpty)).map strip)

/-- Observable outcome of `process_single_pdf`: whether the image/page-count
mismatch warning of lines 197-199 fired, the assembled output document, the
accumulated `all_text`, the combined text of line 256, and the `"pages"`
field of the returned summary dict (line 268), which is `num_pages` from
PyPDF2. -/
structure DocOutcome where
  warnedMismatch : Bool
  outputDoc : List OutPage
  allText : List String
  combined : String
  pages : Nat
deriving Repr, DecidableEq

/-- Transcription of `process_single_pdf` (lines 164-269) at the level of
its observable assembly behaviour: warn on image-count mismatch, run the
page loop over all rasterized images, and report `num_pages` in the
summary. -/
def process_single_pdf (env : DocEnv) (opts : Opts) : DocOutcome :=
  let rs := processResults env opts
  { warnedMismatch := decide (env.numImages ≠ env.numPages)
    outputDoc := (rs.map PageResult.pages).flatten
    allText := (rs.map PageResult.texts).flatten
    combined := combined_text ((rs.map PageResult.texts).flatten)
    pages := env.numPages }

/-- One entry of the summary list built by the batch loop of `main` (lines
318-335): on success the dict returned by `process_single_pdf`, on failure a
dict `{"input": ..., "error": str(e)}`. -/
inductive RunEntry (F R : Type) where
  | success (input : F) (res : R)
  | failure (input : F) (err : String)
deriving Repr, DecidableEq

/-- The entry the batch loop records for one file: the outcome of the whole
`process_single_pdf` chain for that file, with an exception caught and
turned into an error entry. -/
def batchEntry {F R : Type} (proc : F → Except String R) (f : F) : RunEntry F R :=
  match proc f with
  | Except.ok r => RunEntry.success f r
  | Except.error e => RunEntry.failure f e

/-- Transcription of the batch loop of `main` (lines 318-335):
`results = []`, then for each file append either the result dict or an
error dict — the `except` clause keeps the loop going. -/
def runBatch {F R : Type} (proc : F → Except String R) :
    List F → List (RunEntry F R) → List (RunEntry F R)
  | [], results => results
  | f :: fs, results =>
    match proc f with
    | Except.ok r => runBatch proc fs (results ++ [RunEntry.success f r])
    | Except.error e => runBatch proc fs (results ++ [RunEntry.failure f e])

/-- Availability of the two system dependencies. -/
structure DepsEnv where
  tesseractOk : Bool
  popplerOk : Bool

/-- Transcription of `check_dependencies` (lines 52-75): Tesseract is probed
via `pytesseract.get_tesseract_version()` and a failure raises
`RuntimeError`; the poppler block (lines 68-75) contains only `pass` — the
rasterizer is NOT probed at startup, so `popplerOk` is never consulted. -/
def check_dependencies (d : DepsEnv) : Except Unit Unit :=
  if d.tesseractOk then Except.ok () else Except.error ()

/-- Environment of one `main` invocation: dependency availability, the
outcome of `list_input_files` (which raises on a nonexistent path), whether
the input is a directory, the `--batch` flag, and the per-document
processing chain (rasterize, assemble, write) as one fallible call. -/
structure MainEnv (F R : Type) where
  deps : DepsEnv
  listFiles : Except Unit (List F)
  inputIsDir : Bool
  batchFlag : Bool
  proc : F → Except String R

/-- Observable outcome of `main`: the process exit code, the documents the
batch loop ran the processing chain on, and the summary list. -/
structure MainOutcome (F R : Type) where
  exitCode : Nat
  processed : List F
  results : List (RunEntry F R)
deriving Repr, DecidableEq

/-- Transcription of the control flow of `main` (lines 276-342):
`check_dependencies` failing exits with code 1 before the input list is
built; `list_input_files` failing exits 1; `--batch` on a non-directory
exits 1; otherwise the batch loop runs over all files and `main` returns 0
regardless of per-document failures. -/
def mainModel {F R : Type} (env : MainEnv F R) : MainOutcome F R :=
  match check_dependencies env.deps with
  | Except.error () => ⟨1, [], []⟩
  | Except.ok () =>
    match env.listFiles with
    | Except.error () => ⟨1, [], []⟩
    | Except.ok files =>
      if env.batchFlag && !env.inputIsDir then ⟨1, [], []⟩
      else ⟨0, files, runBatch env.proc files []⟩

/-- A pdfplumber view of a one-page document whose page text has exactly 21
characters after stripping. -/
def doc21 : PlumberDoc := ⟨[Except.ok (some "abcdefghijklmnopqrstu")]⟩

/-- A pdfplumber view of a one-page document whose page text has exactly 20
characters after stripping. -/
def doc20 : PlumberDoc := ⟨[Except.ok (some "abcdefghijklmnopqrst")]⟩

/-- A one-page, one-image run in which the OCR-to-PDF call succeeds and the
OCR-to-text call raises. -/
def envC1 : DocEnv :=
  { numPages := 1
    plumber := none
    numImages := 1
    ctx := fun _ => ⟨Except.ok (), Except.ok none, Except.ok [7], Except.error ()⟩ }

/-- Options requesting both outputs, with skip-if-text off. -/
def optsC1 : Opts := ⟨true, true, false⟩

/-- A one-page, one-image run whose page has 21 characters of existing text
and every collaborator call succeeding. -/
def envC2 : DocEnv :=
  { numPages := 1
    plumber := some doc21
    numImages := 1
    ctx := fun _ => ⟨Except.ok (), Except.ok (some "hello there, a page"), Except.ok [3], Except.ok "x"⟩ }

/-- Options with text output and skip-if-text both on. -/
def optsC2 : Opts := ⟨true, true, true⟩

/-- A one-page, one-image run whose page has existing text but whose
original-page copy fails; OCR succeeds. -/
def envC4 : DocEnv :=
  { numPages := 1
    plumber := some doc21
    numImages := 1
    ctx := fun _ => ⟨Except.error (), Except.ok none, Except.ok [5], Except.ok "recovered"⟩ }

/-- Options with text output and skip-if-text both on, for the fallback
run. -/
def optsC4 : Opts := ⟨true, true, true⟩

/-- A two-page run producing OCR texts with surrounding whitespace. -/
def envC5 : DocEnv :=
  { numPages := 2
    plumber := none
    numImages := 2
    ctx := fun i =>
      ⟨Except.ok (), Except.ok none, Except.ok [i], Except.ok (if i = 0 then " A " else "B")⟩ }

/-- Options requesting text output, skip-if-text off. -/
def optsC5 : Opts := ⟨true, true, false⟩

/-- A `main` run with Tesseract present but poppler missing: every document
fails in `pdf_to_images` with the runtime error of line 126. -/
def envC7bad : MainEnv Nat Nat :=
  { deps := ⟨true, false⟩
    listFiles := Except.ok [0]
    inputIsDir := false
    batchFlag := false
    proc := fun _ => Except.error "Failed to convert PDF to images: poppler not installed" }

/-- A `main` run with Tesseract missing. -/
def envC7dep : MainEnv Nat Nat :=
  { deps := ⟨false, true⟩
    listFiles := Except.ok [0, 1]
    inputIsDir := true
    batchFlag := true
    proc := fun n => Except.ok n }

/-- A run where the rasterizer returns two images for a one-page document,
with every collaborator call succeeding. -/
def envC8 : DocEnv :=
  { numPages := 1
    plumber := none
    numImages := 2
    ctx := fun i => ⟨Except.ok (), Except.ok none, Except.ok [i], Except.ok ""⟩ }

/-- Options with only PDF output, skip-if-text off. -/
def optsC8 : Opts := ⟨true, false, false⟩

/-- Another two-images-for-one-page run, used to exhibit the summary's
`pages` field differing from the written page count. -/
def envC10 : DocEnv :=
  { numPages := 1
    plumber := none
    numImages := 2
    ctx := fun i => ⟨Except.ok (), Except.ok none, Except.ok [i + 10], Except.ok ""⟩ }

/-- Options with only PDF output, skip-if-text on. -/
def optsC10 : Opts := ⟨true, false, true⟩

/-! Helper lemmas. -/

/-- The batch loop with accumulator is append of the per-file entries. -/
theorem runBatch_eq_append {F R : Type} (proc : F → Except String R) (fs : List F)
    (acc : List (RunEntry F R)) :
    runBatch proc fs acc = acc ++ fs.map (batchEntry proc) := by
  induction fs generalizing acc with
  | nil => simp [runBatch]
  | cons f fs ih =>
    simp only [runBatch]
    cases hp : proc f with
    | ok r => simp [ih, batchEntry, hp]
    | error e => simp [ih, batchEntry, hp]

/-! Theorems for the claims. -/

/-- C3: for every document and every page index in `[0, page_count)` whose
text extraction succeeds and returns a string, the classifier
`pdf_page_has_text` returns true exactly when the extracted text, after
stripping surrounding whitespace, has length strictly greater than 20. -/
theorem c3_classifier_threshold (doc : PlumberDoc) (idx : Nat) (t : String)
    (h1 : idx < doc.pages.length)
    (h2 : doc.pages.getD idx (Except.error ()) = Except.ok (some t)) :
    pdf_page_has_text (some doc) (idx : Int) = true ↔ 20 < (strip t).length := by
  have hc : (decide ((idx : Int) < 0) || decide ((doc.pages.length : Int) ≤ (idx : Int))) = false := by
    simp
    omega
  rw [pdf_page_has_text]
  rw [hc]
  simp only [Bool.false_eq_true, if_false]
  rw [Int.toNat_natCast, h2]
  constructor
  · intro h
    exact of_decide_eq_true (Bool.and_elim_right h)
  · intro h
    have hne : ¬ t.isEmpty := by
      intro he
      rw [String.isEmpty_iff] at he
      subst he
      simp [strip] at h
    simp [hne, h]

/-- C3 witness: a page with exactly 21 stripped characters is classified as
having text, and one with exactly 20 is not. -/
theorem c3_classifier_threshold_inst :
    pdf_page_has_text (some doc21) (0 : Nat) = true ∧
    pdf_page_has_text (some doc20) (0 : Nat) = false := by
  constructor
  · exact (c3_classifier_threshold doc21 0 "abcdefghijklmnopqrstu" (by decide) rfl).mpr (by decide)
  · decide

/-- C9: for every pdfplumber view and every integer page index outside
`[0, page_count)` — negative indices included — `pdf_page_has_text` returns
false; being a total Lean function, it raises no error on any integer. -/
theorem c9_out_of_range_false (p : Option PlumberDoc) (i : Int)
    (h : i < 0 ∨ (plumberPageCount p : Int) ≤ i) :
    pdf_page_has_text p i = false := by
  cases p with
  | none => rfl
  | some doc =>
    have hlen : (plumberPageCount (some doc) : Int) = (doc.pages.length : Int) := rfl
    rw [hlen] at h
    have hc : (decide (i < 0) || decide ((doc.pages.length : Int) ≤ i)) = true := by
      rcases h with h | h <;> simp [h]
    rw [pdf_page_has_text, hc]
    simp

/-- C9 witness: index `-1` of a document that does have a text-bearing page
is classified false. -/
theorem c9_out_of_range_false_inst :
    ((-1 : Int) < 0 ∨ (plumberPageCount (some doc21) : Int) ≤ -1) ∧
    pdf_page_has_text (some doc21) (-1) = false :=
  ⟨Or.inl (by decide), c9_out_of_range_false (some doc21) (-1) (Or.inl (by decide))⟩

/-- C2: with skip-if-text enabled, a page the classifier reports as having
text — provided the original-page copy succeeds and, when text output is
requested, the pre-existing-text extraction succeeds — contributes exactly
the unchanged original page to the output and the OCR engine is never
invoked for it. -/
theorem c2_skip_copies_original (env : DocEnv) (opts : Opts) (idx : Nat)
    (hskip : opts.skip_if_text = true)
    (hcls : pdf_page_has_text env.plumber (idx : Int) = true)
    (hcopy : copyOriginal env.numPages (env.ctx idx) idx = Except.ok ())
    (htxt : opts.output_txt = true → ∃ t, (env.ctx idx).skipExtract = Except.ok t) :
    (processPage env opts idx).pages = [OutPage.original idx] ∧
    (processPage env opts idx).ocrCalls = 0 := by
  cases ht : opts.output_txt with
  | false =>
    simp only [processPage, hskip, hcls, Bool.and_self, if_true, skipStep, hcopy, ht]
    simp
  | true =>
    obtain ⟨t, hext⟩ := htxt ht
    simp only [processPage, hskip, hcls, Bool.and_self, if_true, skipStep, hcopy, ht, hext]
    simp

/-- C2 witness: a run whose single page carries 21 characters of text and
whose collaborator calls all succeed copies the original page and makes no
OCR call. -/
theorem c2_skip_copies_original_inst :
    pdf_page_has_text envC2.plumber ((0 : Nat) : Int) = true ∧
    (processPage envC2 optsC2 0).pages = [OutPage.original 0] ∧
    (processPage envC2 optsC2 0).ocrCalls = 0 := by
  have h := c2_skip_copies_original envC2 optsC2 0 rfl (by decide) rfl
    (fun _ => ⟨some "hello there, a page", rfl⟩)
  exact ⟨by decide, h.1, h.2⟩

/-- C4: with skip-if-text enabled and the classifier reporting text, if the
original-page copy fails, the page is rerouted through OCR: the single OCR
page is appended (so the output does not miss the page) and the OCR engine
is invoked at least once. -/
theorem c4_copy_failure_falls_back_to_ocr (env : DocEnv) (opts : Opts) (idx p : Nat)
    (hskip : opts.skip_if_text = true)
    (hcls : pdf_page_has_text env.plumber (idx : Int) = true)
    (hcopy : copyOriginal env.numPages (env.ctx idx) idx = Except.error ())
    (hocr : (env.ctx idx).ocrPdf = Except.ok [p])
    (htxt : opts.output_txt = true → ∃ t, (env.ctx idx).ocrText = Except.ok t) :
    (processPage env opts idx).pages = [OutPage.ocr p] ∧
    1 ≤ (processPage env opts idx).ocrCalls := by
  cases ht : opts.output_txt with
  | false =>
    simp only [processPage, hskip, hcls, Bool.and_self, if_true, skipStep, hcopy, ocrStep,
      hocr, ht]
    simp
  | true =>
    obtain ⟨t, hext⟩ := htxt ht
    simp only [processPage, hskip, hcls, Bool.and_self, if_true, skipStep, hcopy, ocrStep,
      hocr, ht, hext]
    simp

/-- C4 witness: a run whose single text-bearing page fails to copy falls
back to OCR and appends the OCR page. -/
theorem c4_copy_failure_falls_back_to_ocr_inst :
    pdf_page_has_text envC4.plumber ((0 : Nat) : Int) = true ∧
    (processPage envC4 optsC4 0).pages = [OutPage.ocr 5] ∧
    1 ≤ (processPage envC4 optsC4 0).ocrCalls := by
  have h := c4_copy_failure_falls_back_to_ocr envC4 optsC4 0 5 rfl (by decide) rfl rfl
    (fun _ => ⟨"recovered", rfl⟩)
  exact ⟨by decide, h.1, h.2⟩

/-- C1 (evaluation at the failing input): in a one-page, one-image run with
text output requested, where the OCR-to-PDF call succeeds and the
OCR-to-text call raises, the page-level exception handler appends the
original page on top of the already-merged OCR page — the single input page
contributes two output pages, violating the page-count invariant. -/
theorem c1_page_count_bug_eval :
    envC1.numPages = 1 ∧ envC1.numImages = 1 ∧
    (process_single_pdf envC1 optsC1).outputDoc = [OutPage.ocr 7, OutPage.original 0] ∧
    (process_single_pdf envC1 optsC1).outputDoc.length = 2 := by
  refine ⟨rfl, rfl, ?_, ?_⟩ <;> decide

/-- C5 counterexample: a document whose two pages yield OCR texts `" A "`
and `"B"` does not produce the raw segments joined by the separator — the
code strips each segment first. -/
theorem c5_join_counterexample :
    (process_single_pdf envC5 optsC5).allText = [" A ", "B"] ∧
    (process_single_pdf envC5 optsC5).combined ≠ " A " ++ pageBreakSep ++ "B" := by
  constructor
  · decide
  · decide

/-- C5 amended: the combined text equals the per-page text segments, each
stripped of surrounding whitespace, joined with the page-break separator in
page order; here stated for runs in which every accumulated segment is
non-empty, so that none is dropped by the filter. -/
theorem c5_join_trimmed (ts : List String) (h : ∀ t ∈ ts, t ≠ "") :
    combined_text ts = String.intercalate pageBreakSep (ts.map strip) := by
  unfold combined_text
  congr 1
  have hf : ts.filter (fun t => !t.isEmpty) = ts := by
    rw [List.filter_eq_self]
    intro a ha
    have hne := h a ha
    cases he : a.isEmpty
    · rfl
    · exact absurd ((String.isEmpty_iff a).mp (by rw [he])) hne
  rw [hf]

/-- C5 witness: the spec's three-page example — already-stripped texts "A",
"B", "C" combine to `"A" ++ sep ++ "B" ++ sep ++ "C"`. -/
theorem c5_join_trimmed_inst :
    (∀ t ∈ ["A", "B", "C"], t ≠ "") ∧
    combined_text ["A", "B", "C"] = "A" ++ pageBreakSep ++ "B" ++ pageBreakSep ++ "C" := by
  refine ⟨by decide, ?_⟩
  rw [c5_join_trimmed ["A", "B", "C"] (by decide)]
  decide

/-- C6: the batch loop returns exactly one entry per input document, in
order — a document whose processing chain raises is recorded as a failure
entry carrying the error description, and the loop continues with the next
document; no failure aborts the batch and no document is dropped. -/
theorem c6_batch_isolation {F R : Type} (proc : F → Except String R) (files : List F) :
    (runBatch proc files []).length = files.length ∧
    runBatch proc files [] = files.map (batchEntry proc) := by
  have h := runBatch_eq_append proc files []
  rw [List.nil_append] at h
  exact ⟨by rw [h, List.length_map], h⟩

/-- C7 counterexample: with Tesseract present but poppler (the rasterizer)
missing, `main` does not fail at startup — the document list is built, the
document is processed (failing inside `pdf_to_images`), and the process
exits 0 with the failure recorded only in the summary. -/
theorem c7_rasterizer_not_checked :
    envC7bad.deps.popplerOk = false ∧
    mainModel envC7bad =
      ⟨0, [0], [RunEntry.failure 0 "Failed to convert PDF to images: poppler not installed"]⟩ := by
  constructor
  · rfl
  · decide

/-- C7 amended: if the OCR engine (Tesseract) is not reachable, the run
exits with code 1 after the dependency check, before any input document is
listed or processed; the rasterizer is not probed at startup at all. -/
theorem c7_ocr_gate {F R : Type} (env : MainEnv F R) (h : env.deps.tesseractOk = false) :
    mainModel env = ⟨1, [], []⟩ := by
  unfold mainModel check_dependencies
  rw [h]
  rfl

/-- C7 witness: a concrete run with Tesseract missing exits 1 having
processed nothing. -/
theorem c7_ocr_gate_inst :
    envC7dep.deps.tesseractOk = false ∧ mainModel envC7dep = ⟨1, [], []⟩ :=
  ⟨rfl, c7_ocr_gate envC7dep rfl⟩

/-- C8 counterexample: when the rasterizer returns two images for a one-page
document, the warning fires but the loop does not restrict itself to the
shorter sequence — both images are processed and the output has two pages,
though `min(len(images), num_pages) = 1`. -/
theorem c8_longer_images_processed :
    envC8.numPages = 1 ∧ envC8.numImages = 2 ∧
    (process_single_pdf envC8 optsC8).warnedMismatch = true ∧
    (process_single_pdf envC8 optsC8).outputDoc = [OutPage.ocr 0, OutPage.ocr 1] := by
  refine ⟨rfl, rfl, ?_, ?_⟩ <;> decide

/-- C8 amended: the count mismatch is logged as a warning and processing
continues; the per-page loop iterates exactly once per rasterized image
(indexing the original document only through fallible calls), so when the
images are fewer only that prefix of pages is processed, and when the images
are more numerous every image is still processed. -/
theorem c8_loop_over_images (env : DocEnv) (opts : Opts) (i : Nat) (h : i < env.numImages) :
    ((process_single_pdf env opts).warnedMismatch = true ↔ env.numImages ≠ env.numPages) ∧
    (processResults env opts).length = env.numImages ∧
    (processResults env opts).getD i ⟨[], [], 0⟩ = processPage env opts i := by
  refine ⟨by simp [process_single_pdf], by simp [processResults], ?_⟩
  simp [processResults, List.getD_eq_getElem?_getD, List.getElem?_map, List.getElem?_range, h]

/-- C8 witness: in the two-images-for-one-page run, image index 1 — beyond
the shorter sequence — is processed by the loop. -/
theorem c8_loop_over_images_inst :
    1 < envC8.numImages ∧
    (processResults envC8 optsC8).getD 1 ⟨[], [], 0⟩ = processPage envC8 optsC8 1 :=
  ⟨by decide, (c8_loop_over_images envC8 optsC8 1 (by decide)).2.2⟩

/-- C10: the `pages` field of the summary dict always reports the page count
the PDF reader returned before processing, never the number of pages
actually written; in the two-images-for-one-page run the output document has
two pages while the summary reports one. -/
theorem c10_pages_field :
    (∀ (env : DocEnv) (opts : Opts), (process_single_pdf env opts).pages = env.numPages) ∧
    (process_single_pdf envC10 optsC10).outputDoc.length ≠
      (process_single_pdf envC10 optsC10).pages :=
  ⟨fun _ _ => rfl, by decide⟩
